import Mathlib

/-!
# Verification of hyprland_minimizer against its specification

Shallow embedding of the relevant parts of the `hyprland_minimizer` daemon
(src/hyprland.rs, src/lock.rs, src/dbus.rs, src/main.rs) and proofs of the
specification claims about it.

Effectful Rust code is embedded as pure Lean functions that return explicit
traces of the external effects (compositor dispatch commands, signals sent,
filesystem events), with the outcomes of external probes and commands
supplied as oracle parameters.
-/

namespace HyprlandMinimizer

/-! ## Compositor data model (src/hyprland.rs) -/

/-- A Hyprland workspace (`struct Workspace` in src/hyprland.rs). The Rust
field is an `i32`; the claims only use its sign and equality, so `Int`
embeds it faithfully. -/
structure Workspace where
  id : Int
deriving DecidableEq, Repr

/-- A Hyprland window (`struct WindowInfo` in src/hyprland.rs). -/
structure WindowInfo where
  address : String
  workspace : Workspace
  title : String
  «class» : String
deriving DecidableEq, Repr

/-- The dispatch commands the program builds with `format!` and hands to
`hyprctl dispatch`. Each constructor records one command shape occurring in
the source; `render` below produces the exact string the Rust code builds. -/
inductive DispatchCmd where
  | togglespecialworkspace («class» : String)
  | centerwindow
  | movetoworkspacePlus0
  | alterzorderTop
  | focuswindowInitialclass («class» : String)
  | movetoworkspacesilentSpecial («class» address : String)
  | movetoworkspacePlus0Addr (address : String)
  | movetoworkspaceId (id : Int) (address : String)
  | focuswindowAddr (address : String)
  | closewindowAddr (address : String)
deriving DecidableEq, Repr

/-- The exact command string the Rust code passes to `hyprctl dispatch`
for each command shape. -/
def DispatchCmd.render : DispatchCmd → String
  | .togglespecialworkspace c => "togglespecialworkspace " ++ c
  | .centerwindow => "centerwindow"
  | .movetoworkspacePlus0 => "movetoworkspace +0"
  | .alterzorderTop => "alterzorder top"
  | .focuswindowInitialclass c => "focuswindow initialclass:" ++ c
  | .movetoworkspacesilentSpecial c a =>
      "movetoworkspacesilent special:" ++ c ++ ",address:" ++ a
  | .movetoworkspacePlus0Addr a => "movetoworkspace +0,address:" ++ a
  | .movetoworkspaceId i a => "movetoworkspace " ++ toString i ++ ",address:" ++ a
  | .focuswindowAddr a => "focuswindow address:" ++ a
  | .closewindowAddr a => "closewindow address:" ++ a

/-- Runs a sequence of dispatch commands the way chained `dispatch(...)?`
calls do in Rust: each command is executed in order and the first failure
aborts the rest.  `ok` is the oracle saying whether a given command string
succeeds.  Returns the list of commands actually issued and whether all of
them succeeded (`true` = the Rust function would reach `Ok(())`). -/
def dispatchSeq (ok : String → Bool) : List DispatchCmd → List DispatchCmd × Bool
  | [] => ([], true)
  | c :: rest =>
      if ok c.render then
        let r := dispatchSeq ok rest
        (c :: r.1, r.2)
      else
        ([c], false)

/-- `toggle_special_workspace` (src/hyprland.rs:62-67): toggles the special
workspace for `class` and brings the window to the front. -/
def toggle_special_workspace (ok : String → Bool) («class» : String) :
    List DispatchCmd × Bool :=
  dispatchSeq ok
    [.togglespecialworkspace «class», .centerwindow, .movetoworkspacePlus0,
     .alterzorderTop]

/-- Result of `handle_window_toggle`: the dispatch commands issued and
whether the function returns `Ok(())`. -/
structure ToggleResult where
  issued : List DispatchCmd
  isOk : Bool
deriving DecidableEq, Repr

/-- `handle_window_toggle` (src/hyprland.rs:75-110).  The client list and
the active workspace are fetched fresh by the Rust code at call time; here
they are the `clients` and `current_workspace` parameters.  `ok` is the
dispatch-success oracle. -/
def handle_window_toggle (ok : String → Bool) (clients : List WindowInfo)
    (workspace_name : String) (current_workspace : Workspace) : ToggleResult :=
  match clients.find? (fun c => c.«class» == workspace_name) with
  | none => ⟨[], true⟩
  | some window =>
      if window.workspace.id < 0 then
        let r := toggle_special_workspace ok workspace_name
        ⟨r.1, r.2⟩
      else if window.workspace.id == current_workspace.id then
        let r := dispatchSeq ok
          [.focuswindowInitialclass workspace_name,
           .movetoworkspacesilentSpecial workspace_name window.address]
        ⟨r.1, r.2⟩
      else
        let r := dispatchSeq ok
          [.movetoworkspacePlus0Addr window.address, .centerwindow,
           .alterzorderTop]
        ⟨r.1, r.2⟩

/-! ## Placement semantics of the issued commands

The spec (§3, §8) views a toggle as a pure function of
`(workspace_id, active_workspace_id)` choosing the window's next placement.
We interpret the issued dispatch commands by their effect on the managed
window's placement. -/

/-- Placement of the managed window: in the hidden (special) workspace, or
visible on an ordinary workspace. -/
inductive Placement where
  | hidden
  | visible (wsId : Int)
deriving DecidableEq, Repr

/-- The placement a workspace id encodes: negative ids denote membership in
a hidden (special) workspace. -/
def placementOf (wsId : Int) : Placement :=
  if wsId < 0 then .hidden else .visible wsId

/-- A workspace id carrying each placement.  Special workspaces have
negative ids; `-1` stands for the hidden one (the toggle only ever tests
the sign, so the representative is irrelevant). -/
def wsIdOf : Placement → Int
  | .hidden => -1
  | .visible w => w

/-- Compositor semantics of the dispatch commands, restricted to their
effect on the placement of the managed window (class `class`, address
`address`) while the active workspace is `active`:
`togglespecialworkspace` toggles the special workspace's visibility (its
windows land on the active workspace when shown), the silent special move
hides the window, the `movetoworkspace +0` forms move it to the active
workspace, and focusing / centering / raising do not change placement. -/
def applyCmd («class» address : String) (active : Int) (p : Placement) :
    DispatchCmd → Placement
  | .togglespecialworkspace c =>
      if c = «class» then
        match p with
        | .hidden => .visible active
        | .visible _ => .hidden
      else p
  | .movetoworkspacesilentSpecial c a =>
      if c = «class» ∧ a = address then .hidden else p
  | .movetoworkspacePlus0Addr a =>
      if a = address then .visible active else p
  | .movetoworkspacePlus0 => .visible active
  | .movetoworkspaceId i a => if a = address then .visible i else p
  | _ => p

/-- One toggle of a single managed window with class `class`, address
`address` and workspace id `w`, while the active workspace is `active`,
seen through the placement semantics of the commands it issues (all
dispatches succeeding). -/
def toggleWs («class» address : String) (active : Int) (w : Int) : Int :=
  wsIdOf ((handle_window_toggle (fun _ => true)
      [⟨address, ⟨w⟩, "", «class»⟩] «class» ⟨active⟩).issued.foldl
    (applyCmd «class» address active) (placementOf w))

/-- **C1.** When a window of the given class is found in the freshly fetched
client list, `handle_window_toggle` takes exactly one of three mutually
exclusive cases, decided only by the window's workspace id and the active
workspace id, in this order: workspace id negative → hidden-workspace
toggle for the class followed by centering and raising (and the move onto
the active workspace); workspace id equal to the active workspace id →
focus followed by a silent move into the hidden workspace named after the
class, with no centering; otherwise → move to the active workspace,
center, raise. -/
theorem toggle_three_cases (clients : List WindowInfo) (name : String)
    (cw : Workspace) (w : WindowInfo)
    (hfind : clients.find? (fun c => c.«class» == name) = some w) :
    (w.workspace.id < 0 →
      (handle_window_toggle (fun _ => true) clients name cw).issued =
        [.togglespecialworkspace name, .centerwindow, .movetoworkspacePlus0,
         .alterzorderTop]) ∧
    (0 ≤ w.workspace.id → w.workspace.id = cw.id →
      (handle_window_toggle (fun _ => true) clients name cw).issued =
        [.focuswindowInitialclass name,
         .movetoworkspacesilentSpecial name w.address]) ∧
    (0 ≤ w.workspace.id → w.workspace.id ≠ cw.id →
      (handle_window_toggle (fun _ => true) clients name cw).issued =
        [.movetoworkspacePlus0Addr w.address, .centerwindow,
         .alterzorderTop]) := by
  refine ⟨fun hneg => ?_, fun hnn heq => ?_, fun hnn hne => ?_⟩
  · simp [handle_window_toggle, hfind, toggle_special_workspace,
      dispatchSeq, hneg]
  · have h1 : ¬ cw.id < 0 := by omega
    simp [handle_window_toggle, hfind, dispatchSeq, h1, heq]
  · simp [handle_window_toggle, hfind, dispatchSeq, not_lt.mpr hnn, hne]

/-- Witness for **C1** at a concrete input: a window of class `foo` on
workspace 3 while workspace 3 is active is moved silently into the hidden
workspace, with no centering. -/
theorem toggle_three_cases_witness :
    (0 : Int) ≤ 3 ∧ (3 : Int) = 3 ∧
    (handle_window_toggle (fun _ => true)
        [⟨"0xa", ⟨3⟩, "t", "foo"⟩] "foo" ⟨3⟩).issued =
      [.focuswindowInitialclass "foo",
       .movetoworkspacesilentSpecial "foo" "0xa"] :=
  ⟨by norm_num, rfl,
    (toggle_three_cases [⟨"0xa", ⟨3⟩, "t", "foo"⟩] "foo" ⟨3⟩
        ⟨"0xa", ⟨3⟩, "t", "foo"⟩ rfl).2.1 (by norm_num) rfl⟩

/-- **C2.** When no window of the given class is in the fetched client
list, `handle_window_toggle` returns `Ok(())` and issues no dispatch
command at all, whatever the dispatch oracle and the active workspace. -/
theorem toggle_no_window (ok : String → Bool) (clients : List WindowInfo)
    (name : String) (cw : Workspace)
    (h : clients.find? (fun c => c.«class» == name) = none) :
    handle_window_toggle ok clients name cw = ⟨[], true⟩ := by
  simp [handle_window_toggle, h]

/-- Witness for **C2**: an empty client list yields a successful no-op,
even under an oracle failing every dispatch. -/
theorem toggle_no_window_witness :
    handle_window_toggle (fun _ => false) [] "foo" ⟨1⟩ = ⟨[], true⟩ :=
  toggle_no_window (fun _ => false) [] "foo" ⟨1⟩ rfl

/-- **C3.** Oscillation: viewed through the placement semantics of the
issued commands, a toggle from the "current workspace" case (workspace id
equal to the active id `a ≥ 0`) sends the window to the hidden placement
(a negative workspace id); a second toggle returns it to the active
workspace `a`; a third toggle takes the same transition as the first. -/
theorem toggle_oscillation («class» address : String) (a : Int) (h : 0 ≤ a) :
    toggleWs «class» address a a < 0 ∧
    toggleWs «class» address a (toggleWs «class» address a a) = a ∧
    toggleWs «class» address a
        (toggleWs «class» address a (toggleWs «class» address a a)) =
      toggleWs «class» address a a := by
  have h1 : toggleWs «class» address a a = -1 := by
    simp [toggleWs, handle_window_toggle, dispatchSeq, applyCmd,
      placementOf, wsIdOf, not_lt.mpr h]
  have h2 : toggleWs «class» address a (-1) = a := by
    simp [toggleWs, handle_window_toggle, toggle_special_workspace,
      dispatchSeq, applyCmd, placementOf, wsIdOf]
  rw [h1, h2, h1]
  omega

/-- Witness for **C3** with active workspace 3. -/
theorem toggle_oscillation_witness :
    toggleWs "foo" "0xa" 3 3 < 0 ∧
    toggleWs "foo" "0xa" 3 (toggleWs "foo" "0xa" 3 3) = 3 ∧
    toggleWs "foo" "0xa" 3
        (toggleWs "foo" "0xa" 3 (toggleWs "foo" "0xa" 3 3)) =
      toggleWs "foo" "0xa" 3 3 :=
  toggle_oscillation "foo" "0xa" 3 (by norm_num)

/-! ## Lock file management (src/lock.rs)

The lock file for one application identifier is embedded as an
`Option String` (its contents, or `none` when it does not exist); the
liveness probe (`kill -0 <pid>`) is an oracle `Int → Option Bool`
(`none` = the probe command itself failed to run, `some b` = the probe ran
and reported exit success `b`). -/

/-- Rust `str::trim`: the string with leading and trailing whitespace
removed, computed over the character list. -/
def rust_trim (s : String) : String :=
  ⟨(((s.data.dropWhile Char.isWhitespace).reverse).dropWhile
      Char.isWhitespace).reverse⟩

/-- A non-empty run of decimal digits read as a number; `none` otherwise.
Shared digit grammar of the Rust integer `parse` impls. -/
def decDigits? (l : List Char) : Option Nat :=
  if l ≠ [] ∧ l.all Char.isDigit then
    some (l.foldl (fun n c => n * 10 + (c.toNat - 48)) 0)
  else none

/-- Rust `str::parse::<i32>`: an optional `+`/`-` sign followed by decimal
digits, rejected when out of the 32-bit signed range. -/
def parse_i32 (s : String) : Option Int :=
  let p : Int × List Char :=
    match s.data with
    | '+' :: rest => (1, rest)
    | '-' :: rest => (-1, rest)
    | l => (1, l)
  match decDigits? p.2 with
  | some n =>
      let v := p.1 * n
      if -2147483648 ≤ v ∧ v ≤ 2147483647 then some v else none
  | none => none

/-- Rust `str::parse::<u32>`: an optional `+` followed by decimal digits,
rejected when out of the 32-bit unsigned range. -/
def parse_u32 (s : String) : Option Nat :=
  let l : List Char :=
    match s.data with
    | '+' :: rest => rest
    | l => l
  match decDigits? l with
  | some n => if n ≤ 4294967295 then some n else none
  | none => none

/-- Filesystem events `acquire_lock` can perform on the lock file. -/
inductive FsEvent where
  | removeTok
  | createTok (contents : String)
deriving DecidableEq, Repr

/-- Result of `acquire_lock`: `ret` mirrors the Rust `Ok(Some(pid))` /
`Ok(None)` return value, `file` the resulting lock-file contents, `signals`
the pids sent `SIGUSR1`, and `events` the filesystem operations performed
on the lock file, in order. -/
structure LockResult where
  ret : Option Int
  file : Option String
  signals : List Int
  events : List FsEvent
deriving DecidableEq, Repr

/-- `acquire_lock` (src/lock.rs:30-68).  `file` is the current lock-file
contents (`none` = the file does not exist; an unreadable file takes the
same fall-through path as a missing one), `probe` the `kill -0` liveness
oracle, and `selfPid` the current process id (written in decimal on a
fresh claim).  I/O failure of the final `File::create` is fatal in Rust
and outside this model. -/
def acquire_lock (file : Option String) (probe : Int → Option Bool)
    (selfPid : Nat) : LockResult :=
  match file with
  | none =>
      ⟨none, some (toString selfPid), [], [.createTok (toString selfPid)]⟩
  | some contents =>
      match parse_i32 (rust_trim contents) with
      | none =>
          ⟨none, some (toString selfPid), [], [.createTok (toString selfPid)]⟩
      | some old_pid =>
          match probe old_pid with
          | some true =>
              ⟨some old_pid, some contents, [old_pid], []⟩
          | _ =>
              ⟨none, some (toString selfPid), [],
               [.removeTok, .createTok (toString selfPid)]⟩

/-- Result of `release_lock`: the resulting lock-file contents and whether
the file was removed. -/
structure ReleaseResult where
  file : Option String
  removed : Bool
deriving DecidableEq, Repr

/-- `release_lock` (src/lock.rs:74-87): removes the lock file only when it
exists and its contents parse (as `u32`) to the calling process's own id;
every other case leaves the filesystem unchanged. -/
def release_lock (file : Option String) (selfPid : Nat) : ReleaseResult :=
  match file with
  | none => ⟨none, false⟩
  | some contents =>
      match parse_u32 (rust_trim contents) with
      | some pid => if pid = selfPid then ⟨none, true⟩ else ⟨some contents, false⟩
      | none => ⟨some contents, false⟩

/-- **C4.** A claim attempt against a token recording a live process id
sends that process `SIGUSR1`, returns `AlreadyRunning` with that pid
(`ret = some old_pid`), and performs no filesystem operation: the token is
neither created, overwritten nor deleted. -/
theorem acquire_lock_already_running (contents : String) (old_pid : Int)
    (probe : Int → Option Bool) (selfPid : Nat)
    (hparse : parse_i32 (rust_trim contents) = some old_pid)
    (halive : probe old_pid = some true) :
    acquire_lock (some contents) probe selfPid =
      ⟨some old_pid, some contents, [old_pid], []⟩ := by
  simp [acquire_lock, hparse, halive]

/-- Witness for **C4**: pid 42 recorded and alive; the claim returns
`AlreadyRunning 42`, signals 42, touches nothing. -/
theorem acquire_lock_already_running_witness :
    acquire_lock (some "42") (fun _ => some true) 7 =
      ⟨some 42, some "42", [42], []⟩ :=
  acquire_lock_already_running "42" 42 (fun _ => some true) 7 (by decide) rfl

/-- **C5.** A claim attempt against a token recording a process id whose
liveness probe does not report "alive" — the process does not exist
(`some false`) or the probe itself failed to run (`none`) — deletes the
stale token, writes a fresh token holding the caller's pid, and returns
`Acquired` (`ret = none`). -/
theorem acquire_lock_stale (contents : String) (old_pid : Int)
    (probe : Int → Option Bool) (selfPid : Nat)
    (hparse : parse_i32 (rust_trim contents) = some old_pid)
    (hdead : probe old_pid ≠ some true) :
    acquire_lock (some contents) probe selfPid =
      ⟨none, some (toString selfPid), [],
       [.removeTok, .createTok (toString selfPid)]⟩ := by
  simp only [acquire_lock, hparse]

/-- Witness for **C5**: the probe command itself fails to run (`none`);
the token is still treated as stale, removed, and re-claimed. -/
theorem acquire_lock_stale_witness :
    acquire_lock (some "42") (fun _ => none) 7 =
      ⟨none, some "7", [], [.removeTok, .createTok "7"]⟩ :=
  acquire_lock_stale "42" 42 (fun _ => none) 7 (by decide) (by simp)

/-- **C6.** `release_lock` removes the token if and only if it exists and
its recorded contents parse to the caller's own pid; in every other case
(missing file, unparseable contents, or a different recorded pid) the lock
file is left unchanged. -/
theorem release_lock_owner_scoped (file : Option String) (selfPid : Nat) :
    ((release_lock file selfPid).removed = true ↔
      ∃ c, file = some c ∧ parse_u32 (rust_trim c) = some selfPid) ∧
    ((release_lock file selfPid).removed = false →
      (release_lock file selfPid).file = file) ∧
    ((release_lock file selfPid).removed = true →
      (release_lock file selfPid).file = none) := by
  match file with
  | none => simp [release_lock]
  | some c =>
      match hp : parse_u32 (rust_trim c) with
      | none => simp [release_lock, hp]
      | some pid =>
          rcases eq_or_ne pid selfPid with hself | hself
          · subst hself
            simp [release_lock, hp]
          · simp [release_lock, hp, hself]

/-- Witness for **C6**: a token recording pid 123 released by process 123
is removed; released by process 124 it is untouched. -/
theorem release_lock_owner_scoped_witness :
    (release_lock (some "123") 123).removed = true ∧
    (release_lock (some "123") 124).file = some "123" :=
  ⟨(release_lock_owner_scoped (some "123") 123).1.mpr
      ⟨"123", rfl, by decide⟩,
    (release_lock_owner_scoped (some "123") 124).2.1 (by decide)⟩

/-! ## Startup control flow after the lock claim (src/main.rs)

The startup sequence of `main` after `acquire_lock` returned `Ok(None)`
(step 4 onwards), embedded with oracles for the external interactions:
`clients` is the initial client-list query result (`none` = the query
failed and the `?` operator made `main` return `Err`), `launchOk` whether
`launch_application` succeeded, `appeared` the window the bounded launch
polling loop found within the timeout (`none` = never appeared), and
`registerOk` whether the D-Bus connection setup and the registration with
the StatusNotifierWatcher succeeded.  Steps whose errors the code swallows
with `let _ =` (initial toggle, background move) do not affect the
outcome and are elided. -/

/-- Outcome of the startup sequence: whether the process exits non-zero
during startup, and whether `release_lock` was called during the sequence
(a successful startup keeps the lock until the daemon's own exit path,
step 10 of `main`). -/
structure StartupOutcome where
  exitNonZero : Bool
  lockReleased : Bool
deriving DecidableEq, Repr

/-- The startup control flow of `main` after the lock is acquired
(src/main.rs:71-189): a failed client-list query propagates via `?` with
no lock release; a window of the configured class found → proceed to
registration; otherwise launch and poll — spawn failure propagates via `?`
with no lock release, the polling loop timing out releases the lock and
exits 1, a found window proceeds to registration; a rejected registration
reaches `anyhow::bail!`, returning `Err` from `main` with no lock
release. -/
def main_after_lock (clients : Option (List WindowInfo)) (app_class : String)
    (launchOk : Bool) (appeared : Option WindowInfo) (registerOk : Bool) :
    StartupOutcome :=
  match clients with
  | none => ⟨true, false⟩
  | some cs =>
      match cs.find? (fun c => c.«class» == app_class) with
      | some _ => if registerOk then ⟨false, false⟩ else ⟨true, false⟩
      | none =>
          if launchOk then
            match appeared with
            | some _ => if registerOk then ⟨false, false⟩ else ⟨true, false⟩
            | none => ⟨true, true⟩
          else ⟨true, false⟩

/-- Counterexample to **C7**: the tray registration is rejected while the
managed window was found (class `foo`, workspace 2) — a fatal startup
error after the lock claim (`anyhow::bail!("Failed to register tray
icon.")`, src/main.rs:187) — and the process exits non-zero *without*
releasing the lock token: `release_lock` is only reached on the
launch-timeout path (src/main.rs:109) and on the normal exit path
(src/main.rs:277). -/
theorem main_registration_failure_keeps_lock :
    (main_after_lock (some [⟨"0x1", ⟨2⟩, "t", "foo"⟩]) "foo" true none
        false).exitNonZero = true ∧
    (main_after_lock (some [⟨"0x1", ⟨2⟩, "t", "foo"⟩]) "foo" true none
        false).lockReleased = false := by
  constructor <;> rfl

/-- **C7 (amended).** Fatal startup errors after the lock claim all exit
non-zero, but only the launch-timeout failure (initial window neither
found nor appearing within the polling loop's timeout) releases the lock
token first; a failed initial client-list query, a failed launch spawn,
and a rejected tray registration leave the token in place (to be reclaimed
as stale by the next claim). -/
theorem main_fatal_startup_paths (clients : List WindowInfo)
    (app_class : String) (launchOk registerOk : Bool)
    (appeared : Option WindowInfo) :
    (main_after_lock none app_class launchOk appeared registerOk =
      ⟨true, false⟩) ∧
    (clients.find? (fun c => c.«class» == app_class) = none →
      main_after_lock (some clients) app_class false appeared registerOk =
        ⟨true, false⟩) ∧
    (clients.find? (fun c => c.«class» == app_class) = none →
      main_after_lock (some clients) app_class true none registerOk =
        ⟨true, true⟩) ∧
    (∀ w, clients.find? (fun c => c.«class» == app_class) = some w →
      main_after_lock (some clients) app_class launchOk appeared false =
        ⟨true, false⟩) := by
  refine ⟨rfl, fun h => ?_, fun h => ?_, fun w h => ?_⟩ <;>
    simp [main_after_lock, h]

/-- Witness for the amended **C7**: with no window of class `foo` present
and the launch polling loop timing out, the process exits non-zero after
releasing the lock. -/
theorem main_fatal_startup_paths_witness :
    main_after_lock (some []) "foo" true none true = ⟨true, true⟩ :=
  (main_fatal_startup_paths [] "foo" true true none).2.2.1 rfl

/-! ## D-Bus menu and tray icon (src/dbus.rs)

The menu handlers are embedded as functions from the click parameters to
the list of external effects they perform, in order.  Property values are
embedded as a tagged union; a property map is a list of key/value pairs in
insertion order. -/

/-- A D-Bus property value occurring in the menu properties. -/
inductive PropValue where
  | str (s : String)
  | bool (b : Bool)
deriving DecidableEq, Repr

/-- The property map `get_group_properties` builds for one known item
(src/dbus.rs:88-98), in insertion order. -/
def item_props (label : String) : List (String × PropValue) :=
  [("label", .str label), ("enabled", .bool true), ("visible", .bool true),
   ("type", .str "standard")]

/-- The per-id label `match` inside the `get_group_properties` loop
(src/dbus.rs:89-94); `none` embeds the `continue` taken on unknown ids. -/
def item_label (w : WindowInfo) (id : Int) : Option String :=
  if id = 1 then some ("Toggle " ++ w.title)
  else if id = 2 then
    some ("Restore to workspace (" ++ toString w.workspace.id ++ ")")
  else if id = 3 then some ("Close " ++ w.title)
  else none

/-- One iteration of the `get_group_properties` loop: append the item's
properties to the result, or skip unknown ids. -/
def ggp_step (w : WindowInfo) (result : List (Int × List (String × PropValue)))
    (id : Int) : List (Int × List (String × PropValue)) :=
  match item_label w id with
  | some label => result ++ [(id, item_props label)]
  | none => result

/-- `get_group_properties` (src/dbus.rs:80-103): folds the loop over the
requested ids starting from an empty result. -/
def get_group_properties (w : WindowInfo) (ids : List Int) :
    List (Int × List (String × PropValue)) :=
  ids.foldl (ggp_step w) []

/-- External effects a menu or tray handler can perform. -/
inductive MenuEffect where
  | signalSelf
  | dispatch (c : DispatchCmd)
  | exitNotify
deriving DecidableEq, Repr

/-- `DbusMenu::event` (src/dbus.rs:117-159): the effects of one click
event, in order.  Events whose `event_id` is not `"clicked"` return at
once.  Item 1 signals the process itself with `SIGUSR1`; item 2 moves the
window to its remembered workspace and, if that dispatch succeeded,
focuses it; item 3 closes the window and fires the exit notification
whether or not the dispatch succeeded (the error is only logged); any
other id returns with no effect.  `ok` is the dispatch-success oracle. -/
def event (ok : String → Bool) (w : WindowInfo) (id : Int)
    (event_id : String) : List MenuEffect :=
  if event_id ≠ "clicked" then []
  else if id = 1 then [.signalSelf]
  else if id = 2 then
    if ok (DispatchCmd.movetoworkspaceId w.workspace.id w.address).render then
      [.dispatch (.movetoworkspaceId w.workspace.id w.address),
       .dispatch (.focuswindowAddr w.address)]
    else [.dispatch (.movetoworkspaceId w.workspace.id w.address)]
  else if id = 3 then
    [.dispatch (.closewindowAddr w.address), .exitNotify]
  else []

/-- `DbusMenu::event_group` (src/dbus.rs:106-114): calls `self.event` on
each `(id, event_id)` pair of the batch in order (the ignored `data` and
`timestamp` arguments are dropped from the embedding). -/
def event_group (ok : String → Bool) (w : WindowInfo)
    (events : List (Int × String)) : List MenuEffect :=
  events.foldl (fun acc e => acc ++ event ok w e.1 e.2) []

/-- `StatusNotifierItem::secondary_activate` (src/dbus.rs:255-264): issues
the close-window dispatch (logging any failure) and then fires the exit
notification unconditionally. -/
def secondary_activate (ok : String → Bool) (w : WindowInfo) :
    List MenuEffect :=
  [.dispatch (.closewindowAddr w.address), .exitNotify]

/-- The `get_group_properties` loop, started from any accumulator, appends
exactly the per-id properties of the known ids, in request order. -/
theorem foldl_ggp_step (w : WindowInfo) (ids : List Int)
    (acc : List (Int × List (String × PropValue))) :
    ids.foldl (ggp_step w) acc =
      acc ++ ids.filterMap
        (fun id => (item_label w id).map (fun l => (id, item_props l))) := by
  induction ids generalizing acc with
  | nil => simp
  | cons i rest ih =>
      simp only [List.foldl_cons, List.filterMap_cons, ih, ggp_step]
      cases h : item_label w i <;> simp [h]

/-- The `event_group` loop, started from any accumulator, appends the
effects of the per-event handler calls in batch order. -/
theorem foldl_event_append (ok : String → Bool) (w : WindowInfo)
    (evs : List (Int × String)) (acc : List MenuEffect) :
    evs.foldl (fun a e => a ++ event ok w e.1 e.2) acc =
      acc ++ (evs.map (fun e => event ok w e.1 e.2)).flatten := by
  induction evs generalizing acc with
  | nil => simp
  | cons e rest ih => simp [ih]

/-- **C8.** A click event on an id outside `{1, 2, 3}` performs no effect
at all — no dispatch command, no self-signal, no exit notification — and a
group-property query never lists such an id in its result. -/
theorem unknown_ids_ignored (ok : String → Bool) (w : WindowInfo)
    (id : Int) (event_id : String) (ids : List Int)
    (h1 : id ≠ 1) (h2 : id ≠ 2) (h3 : id ≠ 3) :
    event ok w id event_id = [] ∧
    ∀ ps, (id, ps) ∉ get_group_properties w ids := by
  constructor
  · simp [event, h1, h2, h3]
  · intro ps hmem
    rw [get_group_properties, foldl_ggp_step] at hmem
    simp only [List.nil_append, List.mem_filterMap] at hmem
    obtain ⟨a, _, ha⟩ := hmem
    cases hl : item_label w a with
    | none => rw [hl] at ha; simp at ha
    | some l =>
        rw [hl] at ha
        simp at ha
        rw [ha.1] at hl
        simp [item_label, h1, h2, h3] at hl

/-- Witness for **C8** at id 7: the click is a no-op and id 7 is omitted
from the property query's result. -/
theorem unknown_ids_ignored_witness :
    event (fun _ => true) ⟨"0xa", ⟨2⟩, "t", "foo"⟩ 7 "clicked" = [] ∧
    ((7 : Int), []) ∉ get_group_properties ⟨"0xa", ⟨2⟩, "t", "foo"⟩ [7] :=
  ⟨(unknown_ids_ignored (fun _ => true) ⟨"0xa", ⟨2⟩, "t", "foo"⟩ 7 "clicked"
      [7] (by decide) (by decide) (by decide)).1,
   (unknown_ids_ignored (fun _ => true) ⟨"0xa", ⟨2⟩, "t", "foo"⟩ 7 "clicked"
      [7] (by decide) (by decide) (by decide)).2 []⟩

/-- **C9.** Batched handling fans out to the single-item handlers: the
batched click-event call produces, in order, exactly the concatenated
effects of the single-event handler on each event of the list; the batched
property query returns, in request order, exactly the per-id properties
the single-item match defines for each known id (unknown ids omitted). -/
theorem batch_fanout (ok : String → Bool) (w : WindowInfo)
    (events : List (Int × String)) (ids : List Int) :
    event_group ok w events =
      (events.map (fun e => event ok w e.1 e.2)).flatten ∧
    get_group_properties w ids =
      ids.filterMap
        (fun id => (item_label w id).map (fun l => (id, item_props l))) := by
  constructor
  · rw [event_group, foldl_event_append]
    simp
  · rw [get_group_properties, foldl_ggp_step]
    simp

/-- **C10.** Both close requests at the tray interface — menu item 3
clicked and secondary (middle-click) activation — issue the close-window
dispatch and then fire the exit notification unconditionally: the effect
trace is the same under every dispatch oracle `ok`, including oracles
failing the close command, whose error is only logged. -/
theorem close_fires_exit (ok : String → Bool) (w : WindowInfo) :
    event ok w 3 "clicked" =
      [.dispatch (.closewindowAddr w.address), .exitNotify] ∧
    secondary_activate ok w =
      [.dispatch (.closewindowAddr w.address), .exitNotify] := by
  constructor
  · simp [event]
  · rfl

end HyprlandMinimizer
